import Mathlib

/-!
Verification of the authentication layer of the HKJems jewelry-portal
repository: password hashing (`hashPassword` / `verifyPassword`), the
HMAC-signed bearer token (`generateToken` / `verifyToken`), the in-memory
OTP store (`setOTP` / `verifyOTP`), the role-authorization middleware
(`authorizeRole`), and the user-management handlers (`initializeDefaultAdmin`,
`deleteUser`).

JavaScript strings are modelled as `List Char`.  The Node library
primitives that the code calls (`crypto.createHmac(...).digest("hex")`,
`crypto.pbkdf2Sync(...).toString("hex")`, `Buffer.from(...).toString("base64")`
and its inverse, `JSON.stringify` / `JSON.parse`) are kept abstract in a
`CryptoLib` record: the repository's own logic (splitting, comparisons,
branching, expiry arithmetic, store mutation) is modelled concretely, and
the contracts of the library primitives that a claim needs appear as
explicit hypotheses discharged on a concrete instance in witnesses.

Impure inputs that the code draws from its environment (`Date.now()`,
`crypto.randomBytes`, `Math.random`, the module-level `otpStore` and
`users` arrays) are passed as explicit parameters.
-/

/-- JavaScript strings, modelled as lists of characters. -/
abbrev Str := List Char

/-- `String.prototype.split` at a single separator character: splits the
string into the (possibly empty) chunks between occurrences of `c`.
`JS: "a.b".split(".") = ["a","b"]`, `"ab".split(".") = ["ab"]`. -/
def splitOnChar (c : Char) : Str → List Str
  | [] => [[]]
  | a :: rest =>
    if a = c then [] :: splitOnChar c rest
    else
      match splitOnChar c rest with
      | [] => [[a]]
      | p :: ps => (a :: p) :: ps

/-- The token payload object built by `generateToken`:
`{ userId, role, iat: Date.now(), exp: Date.now() + expiresIn }`. -/
structure TokenPayload where
  userId : Str
  role : Str
  iat : Nat
  exp : Nat
deriving DecidableEq, Repr

/-- The Node library primitives used by `src/server/utils/auth.ts`, kept
abstract: `hmacSha256 key msg` is
`crypto.createHmac("sha256", key).update(msg).digest("hex")`;
`pbkdf2Sync pw salt iter keylen` is
`crypto.pbkdf2Sync(pw, salt, iter, keylen, "sha512").toString("hex")`;
`b64encode` is `Buffer.from(s).toString("base64")` and `b64decode` is
`Buffer.from(b64, "base64").toString("utf-8")`; `jsonStringify` is
`JSON.stringify` on a payload object and `jsonParsePayload` is
`JSON.parse` (returning `none` where `JSON.parse` throws). -/
structure CryptoLib where
  hmacSha256 : Str → Str → Str
  pbkdf2Sync : Str → Str → Nat → Nat → Str
  b64encode : Str → Str
  b64decode : Str → Str
  jsonStringify : TokenPayload → Str
  jsonParsePayload : Str → Option TokenPayload

/-- `hashPassword` from `src/server/utils/auth.ts`.  The salt, drawn in the
source as `crypto.randomBytes(16).toString("hex")`, is passed explicitly:
the function returns `` `${salt}:${hash}` `` with
`hash = pbkdf2Sync(password, salt, 1000, 64, "sha512").toString("hex")`. -/
def hashPassword (L : CryptoLib) (salt : Str) (password : Str) : Str :=
  salt ++ ':' :: L.pbkdf2Sync password salt 1000 64

/-- `verifyPassword` from `src/server/utils/auth.ts`: splits the stored
hash on `":"` into `[salt, originalHash]`, rejects when either part is
falsy, recomputes the PBKDF2 hash and compares. -/
def verifyPassword (L : CryptoLib) (password : Str) (hash : Str) : Bool :=
  let parts := splitOnChar ':' hash
  let salt := parts.getD 0 []
  let originalHash := parts.getD 1 []
  if salt = [] ∨ originalHash = [] then false
  else
    let newHash := L.pbkdf2Sync password salt 1000 64
    newHash = originalHash

/-- The default token lifetime in `generateToken`: `24 * 60 * 60 * 1000`
milliseconds (24 hours). -/
def defaultExpiresIn : Nat := 24 * 60 * 60 * 1000

/-- `generateToken` from `src/server/utils/auth.ts`.  `now` stands for
`Date.now()` at issuance.  The token is
`` `${payloadB64}.${signature}` `` where
`payloadB64 = base64(JSON.stringify({userId, role, iat: now, exp: now + expiresIn}))`
and `signature = HMAC-SHA256(secretKey, payloadB64)` in hex. -/
def generateToken (L : CryptoLib) (secretKey : Str) (now : Nat)
    (userId : Str) (role : Str) (expiresIn : Nat) : Str :=
  let payload : TokenPayload := ⟨userId, role, now, now + expiresIn⟩
  let payloadStr := L.jsonStringify payload
  let payloadB64 := L.b64encode payloadStr
  let signature := L.hmacSha256 secretKey payloadB64
  payloadB64 ++ '.' :: signature

/-- The result object of `verifyToken`:
`{ valid, data?: { userId, role }, error? }`. -/
structure VerifyResult where
  valid : Bool
  data : Option (Str × Str)
  error : Option Str
deriving DecidableEq, Repr

/-- `verifyToken` from `src/server/utils/auth.ts`.  `now` stands for
`Date.now()` at verification.  Splits the token on `"."`, destructures the
first two parts as `[payloadB64, signature]` (a missing part, `undefined`
in JS, is conflated with the equally falsy `""`), rejects falsy parts with
"Invalid token format", recomputes and compares the HMAC, decodes the
payload (a `JSON.parse` throw, `none` here, lands in the catch branch
"Token verification failed"), and finally checks `payload.exp < Date.now()`. -/
def verifyToken (L : CryptoLib) (secretKey : Str) (now : Nat) (token : Str) :
    VerifyResult :=
  let parts := splitOnChar '.' token
  let payloadB64 := parts.getD 0 []
  let signature := parts.getD 1 []
  if payloadB64 = [] ∨ signature = [] then
    ⟨false, none, some ("Invalid token format".toList)⟩
  else
    let expectedSignature := L.hmacSha256 secretKey payloadB64
    if signature ≠ expectedSignature then
      ⟨false, none, some ("Invalid token signature".toList)⟩
    else
      let payloadStr := L.b64decode payloadB64
      match L.jsonParsePayload payloadStr with
      | none => ⟨false, none, some ("Token verification failed".toList)⟩
      | some payload =>
        if payload.exp < now then
          ⟨false, none, some ("Token expired".toList)⟩
        else
          ⟨true, some (payload.userId, payload.role), none⟩

/-- The payload part of a token: the first chunk of `token.split(".")`
(`""` standing for a missing part). -/
def payloadPart (token : Str) : Str := (splitOnChar '.' token).getD 0 []

/-- The signature part of a token: the second chunk of `token.split(".")`
(`""` standing for a missing part). -/
def sigPart (token : Str) : Str := (splitOnChar '.' token).getD 1 []

/-- The library contracts that hold of the real Node primitives and that
the token round-trip needs, stated at one payload: base64 decoding inverts
encoding, `JSON.parse` inverts `JSON.stringify`, the base64 text and the
hex digest are non-empty and contain no `'.'` (the base64 and hex
alphabets have none). -/
structure TokenLawful (L : CryptoLib) (secretKey : Str) (p : TokenPayload) : Prop where
  b64_roundtrip : L.b64decode (L.b64encode (L.jsonStringify p)) = L.jsonStringify p
  json_roundtrip : L.jsonParsePayload (L.jsonStringify p) = some p
  enc_no_dot : '.' ∉ L.b64encode (L.jsonStringify p)
  enc_ne_nil : L.b64encode (L.jsonStringify p) ≠ []
  sig_no_dot : '.' ∉ L.hmacSha256 secretKey (L.b64encode (L.jsonStringify p))
  sig_ne_nil : L.hmacSha256 secretKey (L.b64encode (L.jsonStringify p)) ≠ []

/-- One decimal digit of a character, `none` on a non-digit. -/
def digitToNat? (c : Char) : Option Nat :=
  if '0' ≤ c ∧ c ≤ '9' then some (c.toNat - '0'.toNat) else none

/-- Accumulator loop for `digitsToNat?`. -/
def digitsToNatAux : Nat → Str → Option Nat
  | acc, [] => some acc
  | acc, c :: rest =>
    match digitToNat? c with
    | none => none
    | some d => digitsToNatAux (10 * acc + d) rest

/-- Parses a non-empty decimal numeral. -/
def digitsToNat? : Str → Option Nat
  | [] => none
  | s => digitsToNatAux 0 s

/-- Serialization used by the concrete witness library `L0`: the four
payload fields joined by `'/'`. -/
def witnessStringify (p : TokenPayload) : Str :=
  p.userId ++ '/' :: p.role ++ '/' ::
    Nat.toDigits 10 p.iat ++ '/' :: Nat.toDigits 10 p.exp

/-- Partial inverse of `witnessStringify`. -/
def witnessParse (s : Str) : Option TokenPayload :=
  match splitOnChar '/' s with
  | [u, r, i, e] =>
    match digitsToNat? i, digitsToNat? e with
    | some iv, some ev => some ⟨u, r, iv, ev⟩
    | _, _ => none
  | _ => none

/-- A concrete, executable `CryptoLib` used to evaluate witnesses on
concrete inputs: a toy digest (`'h'`/`'k'` prefixed concatenations), the
identity for base64, and the `witnessStringify` serialization.  The
library contracts a theorem assumes are checked on it by `decide` at the
witness's concrete inputs. -/
def L0 : CryptoLib :=
  ⟨fun key msg => 'h' :: key ++ msg,
   fun pw salt _ _ => 'k' :: pw ++ salt,
   fun s => s, fun s => s,
   witnessStringify, witnessParse⟩

/-- `generateOTP` from `src/server/utils/auth.ts`:
`Math.floor(100000 + Math.random() * 900000).toString()`.  The random draw
is passed explicitly as `r` with `Math.floor(Math.random() * 900000) = r % 900000`. -/
def generateOTP (r : Nat) : Str :=
  Nat.toDigits 10 (100000 + r % 900000)

/-- An entry of the module-level `otpStore`: `{ code, expiresAt }`. -/
structure OtpEntry where
  code : Str
  expiresAt : Nat
deriving DecidableEq, Repr

/-- The module-level `otpStore: Record<string, { code, expiresAt }>`,
modelled as an association list keyed by email. -/
abbrev OtpStore := List (Str × OtpEntry)

/-- Reading `otpStore[email]`. -/
def otpLookup (email : Str) : OtpStore → Option OtpEntry
  | [] => none
  | (e, entry) :: rest => if e = email then some entry else otpLookup email rest

/-- `delete otpStore[email]`. -/
def otpErase (email : Str) : OtpStore → OtpStore
  | [] => []
  | (e, entry) :: rest =>
    if e = email then otpErase email rest else (e, entry) :: otpErase email rest

/-- The assignment `otpStore[email] = entry`: observably, the entry under
`email` becomes `entry` and every other key is untouched. -/
def otpAssign (email : Str) (entry : OtpEntry) (s : OtpStore) : OtpStore :=
  (email, entry) :: otpErase email s

/-- The default TTL of `setOTP`: 300 seconds. -/
def defaultTtlSeconds : Nat := 300

/-- `setOTP` from `src/server/utils/auth.ts`:
`otpStore[email] = { code, expiresAt: Date.now() + ttlSeconds * 1000 }`.
`now` stands for `Date.now()`; the store is passed and returned explicitly. -/
def setOTP (s : OtpStore) (now : Nat) (email code : Str) (ttlSeconds : Nat) :
    OtpStore :=
  otpAssign email ⟨code, now + ttlSeconds * 1000⟩ s

/-- `verifyOTP` from `src/server/utils/auth.ts`: returns `false` when no
entry is stored; deletes the entry and returns `false` when it is expired
(`stored.expiresAt < Date.now()`); returns `false` leaving the store
untouched when the code mismatches; deletes the entry and returns `true`
on a match.  Returns the pair (JS return value, updated store). -/
def verifyOTP (s : OtpStore) (now : Nat) (email code : Str) : Bool × OtpStore :=
  match otpLookup email s with
  | none => (false, s)
  | some stored =>
    if stored.expiresAt < now then (false, otpErase email s)
    else if stored.code ≠ code then (false, s)
    else (true, otpErase email s)

/-- An operation on the OTP store, for temporal claims: any later call to
`setOTP` or `verifyOTP` (each carrying its own `Date.now()`). -/
inductive OtpOp where
  | set (email code : Str) (ttlSeconds : Nat) (now : Nat)
  | verify (email code : Str) (now : Nat)
deriving DecidableEq, Repr

/-- The store after one operation. -/
def applyOtpOp (s : OtpStore) : OtpOp → OtpStore
  | .set email code ttl now => setOTP s now email code ttl
  | .verify email code now => (verifyOTP s now email code).2

/-- The store after a sequence of operations. -/
def runOtpOps (s : OtpStore) (ops : List OtpOp) : OtpStore :=
  ops.foldl applyOtpOp s

/-- Whether an operation is a `setOTP` for the given email. -/
def isSetFor (email : Str) : OtpOp → Bool
  | .set e _ _ _ => e = email
  | .verify _ _ _ => false

/-- The outcome of an Express middleware on a request: either it calls
`next()` (the downstream handler runs) or it responds with
`res.status(code).json({ success: false, message })`. -/
inductive MwResult where
  | next
  | respond (status : Nat) (message : Str)
deriving DecidableEq, Repr

/-- JS falsiness of `req.userRole`, a string or `undefined`: falsy when
`undefined` or `""`. -/
def roleFalsy : Option Str → Bool
  | none => true
  | some r => r = ([] : Str)

/-- `authorizeRole` from `src/server/middleware/auth.ts`: the middleware
returned by `authorizeRole(allowedRoles)` responds 401 when
`!req.userRole`, responds 403 when `!allowedRoles.includes(req.userRole)`,
and otherwise calls `next()`. -/
def authorizeRole (allowedRoles : List Str) (userRole : Option Str) : MwResult :=
  if roleFalsy userRole then
    .respond 401 ("User not authenticated".toList)
  else if userRole.getD [] ∉ allowedRoles then
    .respond 403 ("Insufficient permissions".toList)
  else
    .next

/-- The `User` interface of the in-memory auth handlers
(`id, email, name, phone?, passwordHash, role, createdAt, updatedAt, isActive`). -/
structure User where
  id : Str
  email : Str
  name : Str
  phone : Option Str
  passwordHash : Str
  role : Str
  createdAt : Str
  updatedAt : Str
  isActive : Bool
deriving DecidableEq, Repr

/-- The protected default admin email, `"akira@hkjewel.co"`. -/
def defaultAdminEmail : Str := "akira@hkjewel.co".toList

/-- Whether the in-memory `users` array holds a user with the default
admin email (`users.some((u) => u.email === "akira@hkjewel.co")`). -/
def adminPresent (users : List User) : Bool :=
  users.any fun u => u.email = defaultAdminEmail

/-- `initializeDefaultAdmin` from the in-memory auth handlers: when no
user carries the default admin email, pushes the default admin account.
`now` stands for `Date.now()` (used in the generated id), `nowIso` for
`new Date().toISOString()`, and `salt` for the salt drawn inside
`hashPassword("Admin@123")`. -/
def initializeDefaultAdmin (L : CryptoLib) (salt : Str) (now : Nat)
    (nowIso : Str) (users : List User) : List User :=
  if adminPresent users then users
  else
    users ++ [⟨"admin_".toList ++ Nat.toDigits 10 now, defaultAdminEmail,
      "Admin".toList, none, hashPassword L salt ("Admin@123".toList),
      "ADMIN".toList, nowIso, nowIso, true⟩]

/-- A handler response: `res.json({ message })` on success or
`res.status(code).json({ error })` on failure. -/
inductive HandlerResponse where
  | ok (message : Str)
  | err (status : Nat) (message : Str)
deriving DecidableEq, Repr

/-- `deleteUser` from the in-memory auth handlers: rejects non-admin
requesters with 403, unknown user ids with 404, and a target whose email
is the default admin email with 400; otherwise splices the found user out
of the array.  `requesterRole` is `(req as any).userRole` (possibly
`undefined`), `userId` is `req.params.userId`.  Returns the pair
(response, updated `users` array). -/
def deleteUser (requesterRole : Option Str) (userId : Str)
    (users : List User) : HandlerResponse × List User :=
  if requesterRole ≠ some ("ADMIN".toList) then
    (.err 403 ("Unauthorized".toList), users)
  else
    match users.findIdx? (fun u => u.id = userId) with
    | none => (.err 404 ("User not found".toList), users)
    | some userIndex =>
      match users[userIndex]? with
      | none => (.err 404 ("User not found".toList), users)
      | some target =>
        if target.email = defaultAdminEmail then
          (.err 400 ("Cannot delete default admin account".toList), users)
        else
          (.ok ("User deleted successfully".toList), users.eraseIdx userIndex)

/-- A sequence of `deleteUser` requests, each a (requester role, target
user id) pair, applied to the in-memory `users` array. -/
def runDeletes (reqs : List (Option Str × Str)) (users : List User) :
    List User :=
  reqs.foldl (fun us r => (deleteUser r.1 r.2 us).2) users

/-- A concrete default-admin user record for witnesses. -/
def admin0 : User :=
  ⟨"admin_0".toList, defaultAdminEmail, "Admin".toList, none, "x".toList,
   "ADMIN".toList, "t".toList, "t".toList, true⟩

/-- A concrete non-admin user record for witnesses. -/
def user1 : User :=
  ⟨"user_1".toList, "bob@example.com".toList, "Bob".toList, none, "y".toList,
   "USER".toList, "t".toList, "t".toList, true⟩

theorem splitOnChar_of_not_mem {c : Char} {s : Str} (h : c ∉ s) :
    splitOnChar c s = [s] := by
  induction s with
  | nil => rfl
  | cons a rest ih =>
    have hac : a ≠ c := fun hc => h (hc ▸ List.mem_cons_self a rest)
    have hrest : c ∉ rest := fun hc => h (List.mem_cons_of_mem a hc)
    simp [splitOnChar, hac, ih hrest]

theorem splitOnChar_append {c : Char} {a b : Str} (h : c ∉ a) :
    splitOnChar c (a ++ c :: b) = a :: splitOnChar c b := by
  induction a with
  | nil => simp [splitOnChar]
  | cons x xs ih =>
    have hxc : x ≠ c := fun hc => h (hc ▸ List.mem_cons_self x xs)
    have hxs : c ∉ xs := fun hc => h (List.mem_cons_of_mem x hc)
    simp only [List.cons_append, splitOnChar, if_neg hxc, List.append_eq]
    rw [ih hxs]

theorem otpLookup_erase (a b : Str) (s : OtpStore) :
    otpLookup a (otpErase b s) = if b = a then none else otpLookup a s := by
  induction s with
  | nil => simp [otpErase, otpLookup]
  | cons hd rest ih =>
    obtain ⟨e, entry⟩ := hd
    by_cases hba : b = a
    · subst hba
      by_cases heb : e = b <;> simp [otpErase, otpLookup, heb, ih]
    · by_cases heb : e = b
      · subst heb
        simp [otpErase, otpLookup, ih, hba]
      · simp [otpErase, otpLookup, heb, ih, hba]

theorem otpLookup_assign (a b : Str) (entry : OtpEntry) (s : OtpStore) :
    otpLookup a (otpAssign b entry s) =
      if b = a then some entry else otpLookup a s := by
  by_cases hba : b = a <;> simp [otpAssign, otpLookup, hba, otpLookup_erase]

theorem otpLookup_erase_self (email : Str) (s : OtpStore) :
    otpLookup email (otpErase email s) = none := by
  simp [otpLookup_erase]

theorem verifyOTP_of_lookup_none {s : OtpStore} {email : Str}
    (h : otpLookup email s = none) (now : Nat) (code : Str) :
    verifyOTP s now email code = (false, s) := by
  simp [verifyOTP, h]

theorem verifyOTP_snd_eq_or (s : OtpStore) (now : Nat) (email code : Str) :
    (verifyOTP s now email code).2 = s ∨
      (verifyOTP s now email code).2 = otpErase email s := by
  unfold verifyOTP
  cases hl : otpLookup email s with
  | none => left; rfl
  | some stored =>
    by_cases hexp : stored.expiresAt < now
    · right; simp [hexp]
    · by_cases hcode : stored.code = code
      · right; simp [hexp, hcode]
      · left; simp [hexp, hcode]

theorem verifyOTP_true_erases {s : OtpStore} {now : Nat} {email code : Str}
    (h : (verifyOTP s now email code).1 = true) :
    otpLookup email (verifyOTP s now email code).2 = none := by
  unfold verifyOTP at h ⊢
  cases hl : otpLookup email s with
  | none => simp [hl] at h
  | some stored =>
    simp only [hl] at h ⊢
    by_cases hexp : stored.expiresAt < now
    · simp [hexp] at h
    · by_cases hcode : stored.code = code
      · simp [hexp, hcode, otpLookup_erase_self]
      · simp [hexp, hcode] at h

theorem otpLookup_none_applyOtpOp {email : Str} {s : OtpStore} {op : OtpOp}
    (h : otpLookup email s = none) (hop : isSetFor email op = false) :
    otpLookup email (applyOtpOp s op) = none := by
  cases op with
  | set e c ttl now =>
    have hne : e ≠ email := by simpa [isSetFor] using hop
    simp [applyOtpOp, setOTP, otpLookup_assign, hne, h]
  | verify e c now =>
    rcases verifyOTP_snd_eq_or s now e c with hs | hs
    · simpa [applyOtpOp, hs] using h
    · simp [applyOtpOp, hs, otpLookup_erase, h]

theorem otpLookup_none_runOtpOps {email : Str} {ops : List OtpOp}
    (hops : ∀ op ∈ ops, isSetFor email op = false) {s : OtpStore}
    (h : otpLookup email s = none) :
    otpLookup email (runOtpOps s ops) = none := by
  induction ops generalizing s with
  | nil => simpa [runOtpOps] using h
  | cons op rest ih =>
    have h1 : otpLookup email (applyOtpOp s op) = none :=
      otpLookup_none_applyOtpOp h (hops op (List.mem_cons_self op rest))
    have hrest : ∀ o ∈ rest, isSetFor email o = false := fun o ho =>
      hops o (List.mem_cons_of_mem op ho)
    simpa [runOtpOps] using ih hrest h1

/-- C1: Token issue/verify round-trip — for every userId, role, positive
lifetime `d` and verification time strictly before issuance plus `d`,
`verifyToken` accepts the token produced by `generateToken` and returns
`valid = true` with `data.userId = userId` and `data.role = role`, given
the library contracts (`TokenLawful`) that hold of the real Node
primitives. -/
theorem token_roundtrip_valid (L : CryptoLib) (secretKey userId role : Str)
    (d t now : Nat) (_hd : 0 < d) (hnow : now < t + d)
    (hlaw : TokenLawful L secretKey ⟨userId, role, t, t + d⟩) :
    verifyToken L secretKey now (generateToken L secretKey t userId role d)
      = ⟨true, some (userId, role), none⟩ := by
  have hsplit : splitOnChar '.' (generateToken L secretKey t userId role d)
      = [L.b64encode (L.jsonStringify ⟨userId, role, t, t + d⟩),
         L.hmacSha256 secretKey
           (L.b64encode (L.jsonStringify ⟨userId, role, t, t + d⟩))] := by
    unfold generateToken
    rw [splitOnChar_append hlaw.enc_no_dot,
      splitOnChar_of_not_mem hlaw.sig_no_dot]
  have hexp : ¬ (t + d < now) := by omega
  unfold verifyToken
  rw [hsplit]
  simp [hlaw.enc_ne_nil, hlaw.sig_ne_nil, hlaw.b64_roundtrip,
    hlaw.json_roundtrip, hexp]

theorem token_roundtrip_valid_witness :
    verifyToken L0 ("s".toList) 5
        (generateToken L0 ("s".toList) 0 ("u".toList) ("admin".toList) 10)
      = ⟨true, some ("u".toList, "admin".toList), none⟩ :=
  token_roundtrip_valid L0 ("s".toList) ("u".toList) ("admin".toList) 10 0 5
    (by decide) (by decide)
    ⟨by decide, by decide, by decide, by decide, by decide, by decide⟩

/-- C7: Token expiry — a token produced by `generateToken` with lifetime
`d`, verified at a time strictly later than issuance plus `d`, yields
`valid = false` with error "Token expired", given the library contracts
(`TokenLawful`). -/
theorem token_expired (L : CryptoLib) (secretKey userId role : Str)
    (d t now : Nat) (hnow : t + d < now)
    (hlaw : TokenLawful L secretKey ⟨userId, role, t, t + d⟩) :
    verifyToken L secretKey now (generateToken L secretKey t userId role d)
      = ⟨false, none, some ("Token expired".toList)⟩ := by
  have hsplit : splitOnChar '.' (generateToken L secretKey t userId role d)
      = [L.b64encode (L.jsonStringify ⟨userId, role, t, t + d⟩),
         L.hmacSha256 secretKey
           (L.b64encode (L.jsonStringify ⟨userId, role, t, t + d⟩))] := by
    unfold generateToken
    rw [splitOnChar_append hlaw.enc_no_dot,
      splitOnChar_of_not_mem hlaw.sig_no_dot]
  unfold verifyToken
  rw [hsplit]
  simp [hlaw.enc_ne_nil, hlaw.sig_ne_nil, hlaw.b64_roundtrip,
    hlaw.json_roundtrip, hnow]

theorem token_expired_witness :
    verifyToken L0 ("s".toList) 11
        (generateToken L0 ("s".toList) 0 ("u".toList) ("admin".toList) 10)
      = ⟨false, none, some ("Token expired".toList)⟩ :=
  token_expired L0 ("s".toList) ("u".toList) ("admin".toList) 10 0 11
    (by decide)
    ⟨by decide, by decide, by decide, by decide, by decide, by decide⟩

/-- C2: Tamper rejection — any token whose signature part differs from
the HMAC of its payload part is rejected with `valid = false`, and a
token with a missing (falsy) payload or signature part is rejected with
error "Invalid token format". -/
theorem verifyToken_tamper_rejected (L : CryptoLib) (secretKey : Str)
    (now : Nat) (token : Str) :
    (sigPart token ≠ L.hmacSha256 secretKey (payloadPart token) →
      (verifyToken L secretKey now token).valid = false)
    ∧ ((payloadPart token = [] ∨ sigPart token = []) →
      verifyToken L secretKey now token
        = ⟨false, none, some ("Invalid token format".toList)⟩) := by
  unfold verifyToken payloadPart sigPart
  simp only [List.getD_eq_getElem?_getD]
  constructor
  · intro hmis
    by_cases hfmt : (splitOnChar '.' token)[0]?.getD [] = []
        ∨ (splitOnChar '.' token)[1]?.getD [] = []
    · simp [hfmt]
    · simp [hfmt, hmis]
  · intro hfmt
    simp [hfmt]

theorem verifyToken_tamper_rejected_witness :
    (verifyToken L0 ("s".toList) 0 ("abc.def".toList)).valid = false :=
  (verifyToken_tamper_rejected L0 ("s".toList) 0 ("abc.def".toList)).1
    (by decide)

/-- C3: OTP is one-time — once `verifyOTP email code` has returned
`true`, the store entry for that email is deleted, and after any sequence
of further store operations containing no `setOTP` for that email, every
`verifyOTP` call for that email returns `false`. -/
theorem otp_one_time (s : OtpStore) (now : Nat) (email code : Str)
    (h : (verifyOTP s now email code).1 = true)
    (ops : List OtpOp) (hops : ∀ op ∈ ops, isSetFor email op = false)
    (now' : Nat) (code' : Str) :
    otpLookup email (verifyOTP s now email code).2 = none
    ∧ (verifyOTP (runOtpOps (verifyOTP s now email code).2 ops)
        now' email code').1 = false := by
  have h1 := verifyOTP_true_erases h
  refine ⟨h1, ?_⟩
  have h2 := otpLookup_none_runOtpOps hops h1
  rw [verifyOTP_of_lookup_none h2]

theorem otp_one_time_witness :
    otpLookup ("a".toList)
        (verifyOTP [(("a".toList), ⟨"1".toList, 10⟩)] 0
          ("a".toList) ("1".toList)).2 = none
    ∧ (verifyOTP
        (runOtpOps
          (verifyOTP [(("a".toList), ⟨"1".toList, 10⟩)] 0
            ("a".toList) ("1".toList)).2
          [OtpOp.set ("b".toList) ("2".toList) 300 0,
           OtpOp.verify ("a".toList) ("1".toList) 0])
        5 ("a".toList) ("1".toList)).1 = false :=
  otp_one_time [(("a".toList), ⟨"1".toList, 10⟩)] 0 ("a".toList) ("1".toList)
    (by decide)
    [OtpOp.set ("b".toList) ("2".toList) 300 0,
     OtpOp.verify ("a".toList) ("1".toList) 0]
    (by decide) 5 ("1".toList)

/-- C4: OTP expiry — after `setOTP` stores a code with TTL `ttlSeconds`
(300 by default), a `verifyOTP` call at a time strictly later than the
store time plus the TTL returns `false` and deletes the entry, even when
the candidate equals the stored code. -/
theorem otp_expiry (s : OtpStore) (t0 : Nat) (email code : Str)
    (ttlSeconds : Nat) (now : Nat) (code' : Str)
    (h : t0 + ttlSeconds * 1000 < now) :
    (verifyOTP (setOTP s t0 email code ttlSeconds) now email code').1 = false
    ∧ otpLookup email
        (verifyOTP (setOTP s t0 email code ttlSeconds) now email code').2
        = none := by
  have hl : otpLookup email (setOTP s t0 email code ttlSeconds)
      = some ⟨code, t0 + ttlSeconds * 1000⟩ := by
    simp [setOTP, otpLookup_assign]
  unfold verifyOTP
  rw [hl]
  simp [h, otpLookup_erase_self]

theorem otp_expiry_witness :
    (verifyOTP (setOTP [] 0 ("a".toList) ("1".toList) 300) 300001
        ("a".toList) ("1".toList)).1 = false
    ∧ otpLookup ("a".toList)
        (verifyOTP (setOTP [] 0 ("a".toList) ("1".toList) 300) 300001
          ("a".toList) ("1".toList)).2 = none :=
  otp_expiry [] 0 ("a".toList) ("1".toList) 300 300001 ("1".toList)
    (by decide)

/-- C9: a failed OTP guess does not consume the code — with a stored,
unexpired entry and a candidate different from the stored code,
`verifyOTP` returns `false` with the store unchanged, and the stored code
still verifies afterwards. -/
theorem otp_wrong_guess_frame (s : OtpStore) (now : Nat)
    (email candidate : Str) (entry : OtpEntry)
    (hl : otpLookup email s = some entry)
    (hexp : ¬ entry.expiresAt < now) (hne : candidate ≠ entry.code) :
    verifyOTP s now email candidate = (false, s)
    ∧ (verifyOTP s now email entry.code).1 = true := by
  constructor
  · unfold verifyOTP
    rw [hl]
    simp [hexp, Ne.symm hne]
  · unfold verifyOTP
    rw [hl]
    simp [hexp]

theorem otp_wrong_guess_frame_witness :
    verifyOTP [(("a".toList), ⟨"1".toList, 10⟩)] 5 ("a".toList) ("2".toList)
      = (false, [(("a".toList), ⟨"1".toList, 10⟩)])
    ∧ (verifyOTP [(("a".toList), ⟨"1".toList, 10⟩)] 5
        ("a".toList) (OtpEntry.mk ("1".toList) 10).code).1 = true :=
  otp_wrong_guess_frame [(("a".toList), ⟨"1".toList, 10⟩)] 5
    ("a".toList) ("2".toList) ⟨"1".toList, 10⟩
    (by decide) (by decide) (by decide)

/-- C5: password hash/verify round-trip — for every password and every
salt drawn inside `hashPassword` (the hex of 16 random bytes: non-empty
and without `':'`), verifying the password against
`hashPassword password` succeeds, given that the hex PBKDF2 digest is
likewise non-empty and without `':'`. -/
theorem password_roundtrip (L : CryptoLib) (salt password : Str)
    (hsne : salt ≠ []) (hsc : ':' ∉ salt)
    (hhne : L.pbkdf2Sync password salt 1000 64 ≠ [])
    (hhc : ':' ∉ L.pbkdf2Sync password salt 1000 64) :
    verifyPassword L password (hashPassword L salt password) = true := by
  unfold verifyPassword hashPassword
  rw [splitOnChar_append hsc, splitOnChar_of_not_mem hhc]
  simp [hsne, hhne]

theorem password_roundtrip_witness :
    verifyPassword L0 ("pw".toList)
      (hashPassword L0 ("ab".toList) ("pw".toList)) = true :=
  password_roundtrip L0 ("ab".toList) ("pw".toList)
    (by decide) (by decide) (by decide) (by decide)

/-- C6 counterexample: with `allowedRoles = [""]` and `req.userRole = ""`
the role is set and is a member of the allowed list, yet the middleware
responds 401 and never invokes the handler — the JS falsiness test
`!req.userRole` also fires on a set-but-empty role string. -/
theorem authorizeRole_counterexample :
    ([] : Str) ∈ [([] : Str)]
    ∧ authorizeRole [([] : Str)] (some ([] : Str))
        = .respond 401 ("User not authenticated".toList) := by
  constructor
  · exact List.mem_singleton.mpr rfl
  · rfl

/-- C6 (amended): the middleware produced by `authorizeRole allowedRoles`
invokes the downstream handler iff `req.userRole` is set to a non-empty
string that is a member of `allowedRoles`; when it is unset or empty it
responds 401, and when it is set non-empty but not allowed it responds
403, in both cases without invoking the handler. -/
theorem authorizeRole_gate (allowedRoles : List Str) (userRole : Option Str) :
    (authorizeRole allowedRoles userRole = .next
      ↔ ∃ r, userRole = some r ∧ r ≠ [] ∧ r ∈ allowedRoles)
    ∧ (userRole = none ∨ userRole = some [] →
      authorizeRole allowedRoles userRole
        = .respond 401 ("User not authenticated".toList))
    ∧ (∀ r, userRole = some r → r ≠ [] → r ∉ allowedRoles →
      authorizeRole allowedRoles userRole
        = .respond 403 ("Insufficient permissions".toList)) := by
  unfold authorizeRole roleFalsy
  cases userRole with
  | none => simp
  | some r =>
    by_cases hr : r = []
    · subst hr
      simp
    · by_cases hm : r ∈ allowedRoles
      · simp [hr, hm]
      · simp [hr, hm]

theorem authorizeRole_gate_witness :
    authorizeRole [("ADMIN".toList)] (some ("ADMIN".toList)) = .next :=
  (authorizeRole_gate [("ADMIN".toList)] (some ("ADMIN".toList))).1.mpr
    ⟨"ADMIN".toList, rfl, by decide, by decide⟩

/-- C8 counterexample: the auth utilities are not stateless pure
functions of their JS arguments — `verifyOTP` with identical
`(email, code)` arguments returns different results depending on the
module-level `otpStore`, `generateToken` with identical
`(userId, role, expiresIn)` arguments depends on the clock it reads, and
`hashPassword` with an identical password depends on the salt drawn
inside. -/
theorem auth_not_stateless_counterexample :
    verifyOTP [(("a".toList), ⟨"1".toList, 10⟩)] 0 ("a".toList) ("1".toList)
        ≠ verifyOTP [] 0 ("a".toList) ("1".toList)
    ∧ generateToken L0 ("s".toList) 0 ("u".toList) ("r".toList) 10
        ≠ generateToken L0 ("s".toList) 1 ("u".toList) ("r".toList) 10
    ∧ hashPassword L0 ("aa".toList) ("pw".toList)
        ≠ hashPassword L0 ("bb".toList) ("pw".toList) := by
  refine ⟨by decide, by decide, by decide⟩

/-- C8 (amended): `hashPassword`, `generateToken` and `generateOTP`
consume ambient randomness or the clock, and `setOTP` / `verifyOTP` read
and mutate the shared module-level `otpStore`; the store effects are
however confined to the entry of the email argument — the entry of every
other email is left untouched. -/
theorem otp_ops_frame (s : OtpStore) (now : Nat) (email code other : Str)
    (ttlSeconds : Nat) (hne : other ≠ email) :
    otpLookup other (setOTP s now email code ttlSeconds) = otpLookup other s
    ∧ otpLookup other (verifyOTP s now email code).2 = otpLookup other s := by
  constructor
  · simp [setOTP, otpLookup_assign, Ne.symm hne]
  · rcases verifyOTP_snd_eq_or s now email code with hs | hs
    · rw [hs]
    · rw [hs, otpLookup_erase]
      simp [Ne.symm hne]

theorem otp_ops_frame_witness :
    otpLookup ("b".toList) (setOTP [] 0 ("a".toList) ("1".toList) 300)
      = otpLookup ("b".toList) ([] : OtpStore)
    ∧ otpLookup ("b".toList)
        (verifyOTP [] 0 ("a".toList) ("1".toList)).2
      = otpLookup ("b".toList) ([] : OtpStore) :=
  otp_ops_frame [] 0 ("a".toList) ("1".toList) ("b".toList) 300 (by decide)

theorem any_eraseIdx_of_getElem_not {P : User → Bool} {l : List User}
    {i : Nat} {u : User} (hu : l[i]? = some u) (hnp : P u = false)
    (h : l.any P = true) : (l.eraseIdx i).any P = true := by
  induction l generalizing i with
  | nil => simp at hu
  | cons x rest ih =>
    cases i with
    | zero =>
      have hx : x = u := by simpa using hu
      subst hx
      simp only [List.eraseIdx]
      simp only [List.any_cons, Bool.or_eq_true, hnp] at h
      rcases h with h | h
      · exact (Bool.false_ne_true h).elim
      · exact h
    | succ j =>
      simp only [List.eraseIdx, List.any_cons, Bool.or_eq_true]
      simp only [List.any_cons, Bool.or_eq_true] at h
      rcases h with h | h
      · exact Or.inl h
      · exact Or.inr (ih (by simpa using hu) h)

theorem adminPresent_deleteUser (r : Option Str) (uid : Str)
    (us : List User) (h : adminPresent us = true) :
    adminPresent (deleteUser r uid us).2 = true := by
  unfold deleteUser
  by_cases hr : r ≠ some ("ADMIN".toList)
  · rw [if_pos hr]
    exact h
  · rw [if_neg hr]
    cases hfind : us.findIdx? (fun u => u.id = uid) with
    | none => exact h
    | some i =>
      dsimp only
      cases hget : us[i]? with
      | none => exact h
      | some target =>
        dsimp only
        by_cases hemail : target.email = defaultAdminEmail
        · rw [if_pos hemail]
          exact h
        · rw [if_neg hemail]
          exact any_eraseIdx_of_getElem_not hget (by simp [hemail]) h

theorem adminPresent_runDeletes (reqs : List (Option Str × Str))
    (us : List User) (h : adminPresent us = true) :
    adminPresent (runDeletes reqs us) = true := by
  induction reqs generalizing us with
  | nil => simpa [runDeletes] using h
  | cons r rest ih =>
    simpa [runDeletes] using
      ih _ (adminPresent_deleteUser r.1 r.2 us h)

theorem adminPresent_initializeDefaultAdmin (L : CryptoLib) (salt : Str)
    (now : Nat) (nowIso : Str) (us : List User) :
    adminPresent (initializeDefaultAdmin L salt now nowIso us) = true := by
  unfold initializeDefaultAdmin
  by_cases h : adminPresent us = true
  · rw [if_pos h]
    exact h
  · rw [if_neg (by simpa using h)]
    simp [adminPresent]

/-- C10 counterexample: a `deleteUser` request whose target is the
default admin account but whose requester is not an ADMIN responds 403
"Unauthorized", not 400 "Cannot delete default admin account" — the
claim as stated omits the requester-role guard that runs first (the user
store is still unchanged). -/
theorem deleteUser_admin_counterexample :
    (List.findIdx? (fun u => u.id = "admin_0".toList) [admin0, user1]
        = some 0
      ∧ [admin0, user1][0]? = some admin0
      ∧ admin0.email = defaultAdminEmail)
    ∧ deleteUser (some ("USER".toList)) ("admin_0".toList) [admin0, user1]
        = (.err 403 ("Unauthorized".toList), [admin0, user1]) := by
  refine ⟨⟨by decide, by decide, by decide⟩, by decide⟩

/-- C10 (amended): when an ADMIN requester's `deleteUser` request targets
the user with the default admin email, the handler responds 400 "Cannot
delete default admin account" and the user store is unchanged; the
presence of a user with the default admin email is preserved by every
sequence of `deleteUser` requests, and holds after
`initializeDefaultAdmin` has run. -/
theorem deleteUser_admin_protected (users : List User) (userId : Str)
    (i : Nat) (target : User)
    (hfind : users.findIdx? (fun u => u.id = userId) = some i)
    (hget : users[i]? = some target)
    (hemail : target.email = defaultAdminEmail)
    (reqs : List (Option Str × Str)) (L : CryptoLib) (salt : Str)
    (now : Nat) (nowIso : Str) (users' : List User) :
    deleteUser (some ("ADMIN".toList)) userId users
      = (.err 400 ("Cannot delete default admin account".toList), users)
    ∧ (adminPresent users = true →
        adminPresent (runDeletes reqs users) = true)
    ∧ adminPresent
        (runDeletes reqs (initializeDefaultAdmin L salt now nowIso users'))
        = true := by
  refine ⟨?_, fun h => adminPresent_runDeletes reqs users h,
    adminPresent_runDeletes reqs _
      (adminPresent_initializeDefaultAdmin L salt now nowIso users')⟩
  unfold deleteUser
  rw [if_neg (by simp), hfind]
  dsimp only
  rw [hget]
  dsimp only
  rw [if_pos hemail]

theorem deleteUser_admin_protected_witness :
    deleteUser (some ("ADMIN".toList)) ("admin_0".toList) [admin0, user1]
      = (.err 400 ("Cannot delete default admin account".toList),
         [admin0, user1])
    ∧ (adminPresent [admin0, user1] = true →
        adminPresent
          (runDeletes [(some ("ADMIN".toList), "user_1".toList)]
            [admin0, user1]) = true)
    ∧ adminPresent
        (runDeletes [(some ("ADMIN".toList), "user_1".toList)]
          (initializeDefaultAdmin L0 ("aa".toList) 0 ("t".toList) []))
        = true :=
  deleteUser_admin_protected [admin0, user1] ("admin_0".toList) 0 admin0
    (by decide) (by decide) (by decide)
    [(some ("ADMIN".toList), "user_1".toList)] L0 ("aa".toList) 0
    ("t".toList) []
